import Mathlib

/-!
Shallow embedding of the `fks_config` generator (src/model.rs, src/generator.rs).

The program parses one YAML document into an `AppConfig`, derives
`max_loss_per_trade = account.size * account.risk_per_trade`, renders a fixed
sequence of `KEY=VALUE` lines joined by newlines with one trailing newline,
and writes the result only after the whole text is rendered.

Modelling conventions:
* Rust `f64` scalars are modelled as `ℚ` (exact rationals standing for the
  finite floating point values occurring in documents); `u16`/`u64` as `ℕ`
  with the range checks the deserializer performs.
* The YAML text has already been split into a stream of document trees
  (`List Yaml`); the byte-level YAML lexer is the external `serde_yaml`
  library and is not part of this repository.
* Rust `Display` formatting of numbers is modelled by `fmtF64`; the claims
  never depend on the exact digit string, only on which value is formatted.
-/

namespace FksConfig

/-- A parsed YAML document tree, as consumed by the deserializer:
scalars, sequences and string-keyed mappings. -/
inductive Yaml : Type where
  | null : Yaml
  | bool : Bool → Yaml
  | num : ℚ → Yaml
  | str : String → Yaml
  | seq : List Yaml → Yaml
  | map : List (String × Yaml) → Yaml

/-- `AccountConfig` from src/model.rs: two required `f64` fields. -/
structure AccountConfig where
  size : ℚ
  risk_per_trade : ℚ
deriving Repr, DecidableEq

/-- `NetworkConfig` from src/model.rs: required `u16` port, optional
(`#[serde(default)]`) `u64` simulated latency. -/
structure NetworkConfig where
  master_port : ℕ
  sim_latency_ms : Option ℕ
deriving Repr, DecidableEq

/-- `RuntimeKind` from src/model.rs: closed enum serialized lowercase. -/
inductive RuntimeKind : Type where
  | python : RuntimeKind
  | rust : RuntimeKind
  | node : RuntimeKind
deriving Repr, DecidableEq

/-- `AppConfig` from src/model.rs: the root document type. -/
structure AppConfig where
  account : AccountConfig
  network : NetworkConfig
  runtimes : List RuntimeKind
  vix_gate : Option ℚ
deriving Repr, DecidableEq

/-- A structural deserialization failure: the path of the offending field
(as a list of segments) and the underlying cause message. -/
structure ParseErr where
  path : List String
  cause : String
deriving Repr, DecidableEq

/-- First entry of a YAML mapping with the given key, as the deserializer
reads fields by name. -/
def lookupKey (entries : List (String × Yaml)) (k : String) : Option Yaml :=
  (entries.find? (fun e => e.1 == k)).map (·.2)

/-- Modelled from the spec: the path reported for a missing required field.
The serde-derive generated deserializer and the `serde_path_to_error`
wrapper produce this error; their code is not among this repository's
sources. The spec states that a document missing `account.size` fails with
a `ParseError` whose path identifies `account.size`, and that the
deserialization walk is decorated with a path accumulator of field
segments, so the reported path is the parent path extended with the
missing field's name. -/
def missingField (path : List String) (fld : String) : ParseErr :=
  ⟨path ++ [fld], "missing field `" ++ fld ++ "`"⟩

/-- Deserialize an `f64` field: any numeric scalar is accepted, with no
range restriction (src/model.rs declares plain `f64` fields). -/
def parseF64 (path : List String) : Yaml → Except ParseErr ℚ
  | .num q => .ok q
  | _ => .error ⟨path, "invalid type: expected f64"⟩

/-- Deserialize a `u16` field: an integer scalar in [0, 65535]. -/
def parseU16 (path : List String) : Yaml → Except ParseErr ℕ
  | .num q =>
      if q.den = 1 ∧ 0 ≤ q.num ∧ q.num ≤ 65535 then .ok q.num.toNat
      else .error ⟨path, "invalid value: expected u16"⟩
  | _ => .error ⟨path, "invalid type: expected u16"⟩

/-- Deserialize a `u64` field: an integer scalar in [0, 2^64). -/
def parseU64 (path : List String) : Yaml → Except ParseErr ℕ
  | .num q =>
      if q.den = 1 ∧ 0 ≤ q.num ∧ q.num < 2 ^ 64 then .ok q.num.toNat
      else .error ⟨path, "invalid value: expected u64"⟩
  | _ => .error ⟨path, "invalid type: expected u64"⟩

/-- Deserialize a `RuntimeKind` (src/model.rs, `#[serde(rename_all =
"lowercase")]`): exactly the strings "python", "rust", "node" are accepted,
anything else is an unknown-variant error. -/
def parseRuntimeKind (path : List String) : Yaml → Except ParseErr RuntimeKind
  | .str s =>
      if s = "python" then .ok .python
      else if s = "rust" then .ok .rust
      else if s = "node" then .ok .node
      else .error ⟨path,
        "unknown variant `" ++ s ++ "`, expected one of `python`, `rust`, `node`"⟩
  | _ => .error ⟨path, "invalid type: expected a RuntimeKind string"⟩

/-- Deserialize the elements of the `runtimes` sequence, tracking the
index segment of each element. -/
def parseRuntimeList (path : List String) (i : ℕ) :
    List Yaml → Except ParseErr (List RuntimeKind)
  | [] => .ok []
  | v :: vs => do
      let k ← parseRuntimeKind (path ++ [toString i]) v
      let ks ← parseRuntimeList path (i + 1) vs
      .ok (k :: ks)

/-- Deserialize `AccountConfig`: both fields required, no defaults. -/
def parseAccount (path : List String) : Yaml → Except ParseErr AccountConfig
  | .map es => do
      let sizeY ← match lookupKey es "size" with
        | some v => Except.ok v
        | none => Except.error (missingField path "size")
      let riskY ← match lookupKey es "risk_per_trade" with
        | some v => Except.ok v
        | none => Except.error (missingField path "risk_per_trade")
      let size ← parseF64 (path ++ ["size"]) sizeY
      let risk ← parseF64 (path ++ ["risk_per_trade"]) riskY
      .ok ⟨size, risk⟩
  | _ => .error ⟨path, "invalid type: expected a mapping for AccountConfig"⟩

/-- Deserialize `NetworkConfig`: `master_port` required, `sim_latency_ms`
optional with default `None`; an explicit `null` also yields `None`. -/
def parseNetwork (path : List String) : Yaml → Except ParseErr NetworkConfig
  | .map es => do
      let portY ← match lookupKey es "master_port" with
        | some v => Except.ok v
        | none => Except.error (missingField path "master_port")
      let port ← parseU16 (path ++ ["master_port"]) portY
      let lat ← match lookupKey es "sim_latency_ms" with
        | none => Except.ok Option.none
        | some .null => Except.ok Option.none
        | some v => (parseU64 (path ++ ["sim_latency_ms"]) v).map Option.some
      .ok ⟨port, lat⟩
  | _ => .error ⟨path, "invalid type: expected a mapping for NetworkConfig"⟩

/-- Deserialize the root `AppConfig`: `account`, `network`, `runtimes`
required; `vix_gate` optional with default `None`. -/
def parseAppConfig (path : List String) : Yaml → Except ParseErr AppConfig
  | .map es => do
      let accY ← match lookupKey es "account" with
        | some v => Except.ok v
        | none => Except.error (missingField path "account")
      let netY ← match lookupKey es "network" with
        | some v => Except.ok v
        | none => Except.error (missingField path "network")
      let rtsY ← match lookupKey es "runtimes" with
        | some v => Except.ok v
        | none => Except.error (missingField path "runtimes")
      let acc ← parseAccount (path ++ ["account"]) accY
      let net ← parseNetwork (path ++ ["network"]) netY
      let rts ← match rtsY with
        | .seq vs => parseRuntimeList (path ++ ["runtimes"]) 0 vs
        | _ => Except.error ⟨path ++ ["runtimes"], "invalid type: expected a sequence"⟩
      let vix ← match lookupKey es "vix_gate" with
        | none => Except.ok Option.none
        | some .null => Except.ok Option.none
        | some v => (parseF64 (path ++ ["vix_gate"]) v).map Option.some
      .ok ⟨acc, net, rts, vix⟩
  | _ => .error ⟨path, "invalid type: expected a mapping for AppConfig"⟩

/-- Dot-joined rendering of an error path, as `serde_path_to_error`
displays it ("." for the root). -/
def pathToString (path : List String) : String :=
  if path = [] then "." else String.intercalate "." path

/-- Display formatting of an `f64` value (Rust `format!("{}", v)`),
modelled on the rational stand-in: integers print without a fractional
part, other values via the rational's own representation. The claims
depend only on which value is formatted, not on its digit string. -/
def fmtF64 (q : ℚ) : String :=
  if q.den = 1 then toString q.num else toString q

/-- The ordered key/value pairs the generator emits (src/generator.rs,
`env_lines`): the five unconditional entries, then VIX_GATE when
`vix_gate` is set, then TARGET_RUNTIME when the caller supplied a label. -/
def envPairs (cfg : AppConfig) (runtime : Option String) : List (String × String) :=
  let max_loss := cfg.account.size * cfg.account.risk_per_trade
  ([("ACCOUNT_SIZE", fmtF64 cfg.account.size),
    ("RISK_PER_TRADE", fmtF64 cfg.account.risk_per_trade),
    ("MAX_LOSS_PER_TRADE", fmtF64 max_loss),
    ("MASTER_PORT", toString cfg.network.master_port),
    ("SIM_LATENCY_MS",
      match cfg.network.sim_latency_ms with
      | some v => toString v
      | none => "")] ++
   (match cfg.vix_gate with
    | some vix => [("VIX_GATE", fmtF64 vix)]
    | none => []) ++
   (match runtime with
    | some rt => [("TARGET_RUNTIME", rt)]
    | none => []))

/-- The rendered `KEY=VALUE` lines (each `format!("KEY={}", value)`). -/
def envLines (cfg : AppConfig) (runtime : Option String) : List String :=
  (envPairs cfg runtime).map (fun p => p.1 ++ "=" ++ p.2)

/-- The full rendered output: `env_lines.join("\n") + "\n"`. -/
def render (cfg : AppConfig) (runtime : Option String) : String :=
  String.intercalate "\n" (envLines cfg runtime) ++ "\n"

/-- The error taxonomy surfaced by `generate` before the write step. -/
inductive GenError : Type where
  | readError (msg : String) : GenError
  | emptyDocument : GenError
  | parseError (path : String) (cause : String) : GenError
deriving Repr, DecidableEq

/-- `generate` from src/generator.rs, up to the write: the read result is
either an error message or the stream of parsed YAML documents; only the
first document is used, an empty stream is the "empty yaml" error, a
deserialization failure is reported with its path, and on success the
rendered text (the exact string passed to `fs::write`) is returned. -/
def generate (readRes : Except String (List Yaml)) (runtime : Option String) :
    Except GenError String :=
  match readRes with
  | .error msg => .error (.readError ("reading input config: " ++ msg))
  | .ok docs =>
    match docs with
    | [] => .error .emptyDocument
    | first :: _ =>
      match parseAppConfig [] first with
      | .error e => .error (.parseError (pathToString e.path) e.cause)
      | .ok cfg => .ok (render cfg runtime)

/-- The sequence of writes `generate` performs on the output sink, written
out along the same control flow as src/generator.rs: every early-return
error path performs no write, and the single `fs::write` at the end writes
the complete rendered text. -/
def generateWrites (readRes : Except String (List Yaml)) (runtime : Option String) :
    List String :=
  match readRes with
  | .error _ => []
  | .ok docs =>
    match docs with
    | [] => []
    | first :: _ =>
      match parseAppConfig [] first with
      | .error _ => []
      | .ok cfg => [render cfg runtime]

/-- Decidable equality on `Except`, so concrete runs of the pipeline can be
checked by evaluation. -/
instance {ε α : Type} [DecidableEq ε] [DecidableEq α] : DecidableEq (Except ε α) := by
  intro a b
  cases a <;> cases b
  case error.error e1 e2 => exact decidable_of_iff (e1 = e2) (by simp)
  case ok.ok a1 a2 => exact decidable_of_iff (a1 = a2) (by simp)
  all_goals exact isFalse (by simp)

/-- The document of the spec's concrete scenario: `account: {size: 100000,
risk_per_trade: 0.02}, network: {master_port: 9000}, runtimes: [python]`,
with the risk written as the rational 1/50. -/
def scenarioDoc : Yaml :=
  .map [("account", .map [("size", .num 100000), ("risk_per_trade", .num (1/50))]),
        ("network", .map [("master_port", .num 9000)]),
        ("runtimes", .seq [.str "python"])]

/-- A document whose `account.size` is negative and whose
`account.risk_per_trade` exceeds 1 — structurally well-typed, so the
deserializer accepts it. -/
def outOfRangeDoc : Yaml :=
  .map [("account", .map [("size", .num (-1)), ("risk_per_trade", .num 2)]),
        ("network", .map [("master_port", .num 9000)]),
        ("runtimes", .seq [])]

/-- A document with the required `account.size` field missing. -/
def docMissingSize : Yaml :=
  .map [("account", .map [("risk_per_trade", .num 2)]),
        ("network", .map [("master_port", .num 9000)]),
        ("runtimes", .seq [])]

/-- A well-formed document except that `runtimes` contains the string `s`. -/
def docWithRuntime (s : String) : Yaml :=
  .map [("account", .map [("size", .num 100000), ("risk_per_trade", .num 2)]),
        ("network", .map [("master_port", .num 9000)]),
        ("runtimes", .seq [.str s])]

/-- Reduction of a successful `Except` bind, for rewriting parser runs. -/
theorem exceptBind_ok {ε α β : Type} (x : α) (f : α → Except ε β) :
    (Except.ok x >>= f : Except ε β) = f x := rfl

/-- Reduction of a failed `Except` bind, for rewriting parser runs. -/
theorem exceptBind_error {ε α β : Type} (e : ε) (f : α → Except ε β) :
    (Except.error e >>= f : Except ε β) = .error e := rfl

/-- C1: for every successfully parsed configuration document, `generate`
succeeds with the rendered output, and the rendered MAX_LOSS_PER_TRADE line
(the third line) carries exactly the product of the document's
`account.size` and `account.risk_per_trade`. -/
theorem maxLoss_eq_product (first : Yaml) (docs : List Yaml) (rt : Option String)
    (cfg : AppConfig) (h : parseAppConfig [] first = .ok cfg) :
    generate (.ok (first :: docs)) rt = .ok (render cfg rt) ∧
    (envLines cfg rt)[2]? =
      some ("MAX_LOSS_PER_TRADE=" ++
        fmtF64 (cfg.account.size * cfg.account.risk_per_trade)) := by
  constructor
  · simp [generate, h]
  · simp [envLines, envPairs]

/-- Witness for C1 at the spec's concrete scenario document. -/
theorem maxLoss_eq_product_witness :
    generate (.ok [scenarioDoc]) (some "python") =
      .ok (render ⟨⟨100000, 1/50⟩, ⟨9000, none⟩, [.python], none⟩ (some "python")) ∧
    (envLines ⟨⟨100000, 1/50⟩, ⟨9000, none⟩, [.python], none⟩ (some "python"))[2]? =
      some ("MAX_LOSS_PER_TRADE=" ++ fmtF64 ((100000 : ℚ) * (1/50))) :=
  maxLoss_eq_product scenarioDoc [] (some "python")
    ⟨⟨100000, 1/50⟩, ⟨9000, none⟩, [.python], none⟩ (by rfl)

/-- C2 counterexample: a document whose `account.size` is -1 and whose
`account.risk_per_trade` is 2 is not rejected: it deserializes
successfully and `generate` produces rendered output, refuting the claim
that such documents fail validation and never produce output. -/
theorem outOfRange_accepted :
    parseAppConfig [] outOfRangeDoc =
      .ok ⟨⟨-1, 2⟩, ⟨9000, none⟩, [], none⟩ ∧
    (generate (.ok [outOfRangeDoc]) none).isOk = true := by
  constructor
  · rfl
  · rfl

/-- C2 amended: validation checks only type and shape. Any numeric values
for `account.size` and `account.risk_per_trade` — positive or not, inside
(0, 1] or not — deserialize successfully, and the document produces
rendered output. -/
theorem account_shape_only_validation (size risk : ℚ) (rt : Option String) :
    parseAccount [] (.map [("size", .num size), ("risk_per_trade", .num risk)]) =
      .ok ⟨size, risk⟩ ∧
    (generate (.ok [Yaml.map
      [("account", .map [("size", .num size), ("risk_per_trade", .num risk)]),
       ("network", .map [("master_port", .num 9000)]),
       ("runtimes", .seq [])]]) rt).isOk = true := by
  constructor
  · rfl
  · rfl

/-- C3: the rendered output is the newline-join of the env lines with
exactly one trailing newline appended, and the key/value pairs appear in
the fixed order ACCOUNT_SIZE, RISK_PER_TRADE, MAX_LOSS_PER_TRADE,
MASTER_PORT, SIM_LATENCY_MS, then VIX_GATE when present, then
TARGET_RUNTIME when present. -/
theorem rendered_line_structure (cfg : AppConfig) (rt : Option String) :
    render cfg rt = String.intercalate "\n" (envLines cfg rt) ++ "\n" ∧
    envLines cfg rt = (envPairs cfg rt).map (fun p => p.1 ++ "=" ++ p.2) ∧
    ∃ a b c d e : String, envPairs cfg rt =
      [("ACCOUNT_SIZE", a), ("RISK_PER_TRADE", b), ("MAX_LOSS_PER_TRADE", c),
       ("MASTER_PORT", d), ("SIM_LATENCY_MS", e)] ++
      (match cfg.vix_gate with
       | some v => [("VIX_GATE", fmtF64 v)]
       | none => []) ++
      (match rt with
       | some s => [("TARGET_RUNTIME", s)]
       | none => []) :=
  ⟨rfl, rfl,
   fmtF64 cfg.account.size, fmtF64 cfg.account.risk_per_trade,
   fmtF64 (cfg.account.size * cfg.account.risk_per_trade),
   toString cfg.network.master_port,
   (match cfg.network.sim_latency_ms with
    | some v => toString v
    | none => ""), rfl⟩

/-- C4: the fifth rendered line always carries the SIM_LATENCY_MS key:
its value is the decimal representation of `network.sim_latency_ms` when
present, and the line is exactly "SIM_LATENCY_MS=" when absent. -/
theorem sim_latency_key_always_present (cfg : AppConfig) (rt : Option String) :
    (envPairs cfg rt)[4]? =
      some ("SIM_LATENCY_MS",
            match cfg.network.sim_latency_ms with
            | some v => toString v
            | none => "") ∧
    (envLines cfg rt)[4]? =
      some (match cfg.network.sim_latency_ms with
            | some v => "SIM_LATENCY_MS=" ++ toString v
            | none => "SIM_LATENCY_MS=") := by
  cases h : cfg.network.sim_latency_ms <;>
    simp [envPairs, envLines, h]

/-- C5: the rendered pairs contain the VIX_GATE key exactly once when
`vix_gate` is set and not at all when it is absent, and when set the
emitted pair carries the formatted `vix_gate` value. -/
theorem vix_gate_iff_present (cfg : AppConfig) (rt : Option String) :
    ((envPairs cfg rt).map Prod.fst).count "VIX_GATE" =
      (match cfg.vix_gate with
       | some _ => 1
       | none => 0) ∧
    ∀ v, cfg.vix_gate = some v →
      ("VIX_GATE", fmtF64 v) ∈ envPairs cfg rt ∧
      "VIX_GATE=" ++ fmtF64 v ∈ envLines cfg rt := by
  constructor
  · cases h : cfg.vix_gate <;> cases rt <;> simp [envPairs, h]
  · intro v hv
    constructor <;> simp [envPairs, envLines, hv]

/-- Witness for C5 at a concrete configuration with `vix_gate` set. -/
theorem vix_gate_iff_present_witness :
    ("VIX_GATE", fmtF64 20) ∈
      envPairs ⟨⟨100000, 2⟩, ⟨9000, none⟩, [], some 20⟩ none ∧
    "VIX_GATE=" ++ fmtF64 20 ∈
      envLines ⟨⟨100000, 2⟩, ⟨9000, none⟩, [], some 20⟩ none :=
  (vix_gate_iff_present ⟨⟨100000, 2⟩, ⟨9000, none⟩, [], some 20⟩ none).2 20 rfl

/-- C6: for every configuration (whatever its `runtimes` list) and every
caller-supplied label string — free text, never checked against
`RuntimeKind` — the rendered pairs contain exactly one TARGET_RUNTIME
entry carrying that label, the line "TARGET_RUNTIME=" ++ s appears among
the env lines, and with no label supplied no TARGET_RUNTIME entry exists. -/
theorem target_runtime_free_text (cfg : AppConfig) (s : String) :
    (envPairs cfg (some s)).filter (fun p => p.1 == "TARGET_RUNTIME") =
      [("TARGET_RUNTIME", s)] ∧
    "TARGET_RUNTIME=" ++ s ∈ envLines cfg (some s) ∧
    (envPairs cfg none).filter (fun p => p.1 == "TARGET_RUNTIME") = [] := by
  refine ⟨?_, ?_, ?_⟩ <;>
    cases h : cfg.vix_gate <;>
      simp [envPairs, envLines, h]

/-- C7: a document missing the required `account.size` field fails with a
parse error whose path is "account.size" and whose cause names the missing
field; and in general every deserialization failure surfaces through
`generate` as a `parseError` carrying the offending field path and the
underlying cause message. -/
theorem missing_size_parse_error :
    generate (.ok [docMissingSize]) none =
      .error (.parseError "account.size" "missing field `size`") ∧
    ∀ (first : Yaml) (docs : List Yaml) (rt : Option String) (e : ParseErr),
      parseAppConfig [] first = .error e →
      generate (.ok (first :: docs)) rt =
        .error (.parseError (pathToString e.path) e.cause) := by
  constructor
  · decide
  · intro first docs rt e h
    simp [generate, h]

/-- Witness for C7's general part at a concrete failing document (an
unknown runtime variant). -/
theorem missing_size_parse_error_witness :
    generate (.ok [docWithRuntime "java"]) none =
      .error (.parseError (pathToString ["runtimes", "0"])
        "unknown variant `java`, expected one of `python`, `rust`, `node`") :=
  missing_size_parse_error.2 (docWithRuntime "java") [] none
    ⟨["runtimes", "0"],
     "unknown variant `java`, expected one of `python`, `rust`, `node`"⟩
    (by decide)

/-- C8: `RuntimeKind` is closed with exactly the three members python,
rust, node, deserialized from exactly those lowercase strings; every other
string is rejected with an unknown-variant error, both at the element
level and for a whole document whose `runtimes` list contains it. -/
theorem runtime_kind_closed_enum :
    (∀ p : List String,
      parseRuntimeKind p (.str "python") = .ok .python ∧
      parseRuntimeKind p (.str "rust") = .ok .rust ∧
      parseRuntimeKind p (.str "node") = .ok .node) ∧
    (∀ k : RuntimeKind, k = .python ∨ k = .rust ∨ k = .node) ∧
    (∀ (p : List String) (s : String),
      s ≠ "python" → s ≠ "rust" → s ≠ "node" →
      parseRuntimeKind p (.str s) =
        .error ⟨p, "unknown variant `" ++ s ++
          "`, expected one of `python`, `rust`, `node`"⟩) ∧
    (∀ s : String, s ≠ "python" → s ≠ "rust" → s ≠ "node" →
      generate (.ok [docWithRuntime s]) none =
        .error (.parseError "runtimes.0" ("unknown variant `" ++ s ++
          "`, expected one of `python`, `rust`, `node`"))) := by
  have helem : ∀ (p : List String) (s : String),
      s ≠ "python" → s ≠ "rust" → s ≠ "node" →
      parseRuntimeKind p (.str s) =
        .error ⟨p, "unknown variant `" ++ s ++
          "`, expected one of `python`, `rust`, `node`"⟩ := by
    intro p s h1 h2 h3
    simp [parseRuntimeKind, h1, h2, h3]
  refine ⟨?_, ?_, helem, ?_⟩
  · intro p
    refine ⟨rfl, rfl, rfl⟩
  · intro k
    cases k <;> simp
  · intro s h1 h2 h3
    have h0 : (toString (0 : ℕ)) = "0" := rfl
    have hlist : parseRuntimeList ["runtimes"] 0 [Yaml.str s] =
        .error ⟨["runtimes", "0"],
          "unknown variant `" ++ s ++ "`, expected one of `python`, `rust`, `node`"⟩ := by
      have he := helem ["runtimes", "0"] s h1 h2 h3
      simp [parseRuntimeList, h0, he, exceptBind_error]
    simp [generate, docWithRuntime, parseAppConfig, lookupKey, List.find?,
      parseAccount, parseNetwork, parseF64, parseU16, hlist, pathToString,
      exceptBind_ok, exceptBind_error]
    decide

/-- Witness for C8 at the concrete unknown variant "go". -/
theorem runtime_kind_closed_enum_witness :
    parseRuntimeKind [] (.str "go") =
      .error ⟨[], "unknown variant `go`, expected one of `python`, `rust`, `node`"⟩ :=
  runtime_kind_closed_enum.2.2.1 [] "go" (by decide) (by decide) (by decide)

/-- C9: every invocation either fails before any write — read error, empty
document stream, or deserialization failure — leaving the write trace
empty, or succeeds and performs exactly one write of the complete rendered
text; the sink is never touched on an error. -/
theorem all_or_nothing_writes (readRes : Except String (List Yaml))
    (rt : Option String) :
    ((generate readRes rt).isOk = false ∧ generateWrites readRes rt = []) ∨
    (∃ out, generate readRes rt = .ok out ∧ generateWrites readRes rt = [out]) := by
  cases readRes with
  | error msg => exact .inl ⟨rfl, rfl⟩
  | ok docs =>
    cases docs with
    | nil => exact .inl ⟨rfl, rfl⟩
    | cons first rest =>
      cases h : parseAppConfig [] first with
      | error e => left; simp [generate, generateWrites, h, Except.isOk, Except.toBool]
      | ok cfg =>
        right
        exact ⟨render cfg rt, by simp [generate, h], by simp [generateWrites, h]⟩

/-- C10: two configurations that agree on everything but their `runtimes`
lists render to byte-identical output under the same caller-supplied
label: the `runtimes` list has no influence on any output line. -/
theorem runtimes_noninterference (c1 c2 : AppConfig) (rt : Option String)
    (hacc : c1.account = c2.account) (hnet : c1.network = c2.network)
    (hvix : c1.vix_gate = c2.vix_gate) :
    render c1 rt = render c2 rt ∧ envLines c1 rt = envLines c2 rt := by
  have hp : envPairs c1 rt = envPairs c2 rt := by
    simp [envPairs, hacc, hnet, hvix]
  have hl : envLines c1 rt = envLines c2 rt := by
    simp [envLines, hp]
  exact ⟨by simp [render, hl], hl⟩

/-- Witness for C10 at two concrete configurations with different
`runtimes` lists. -/
theorem runtimes_noninterference_witness :
    render ⟨⟨100000, 2⟩, ⟨9000, none⟩, [.python], none⟩ (some "python") =
      render ⟨⟨100000, 2⟩, ⟨9000, none⟩, [.rust, .node], none⟩ (some "python") :=
  (runtimes_noninterference
    ⟨⟨100000, 2⟩, ⟨9000, none⟩, [.python], none⟩
    ⟨⟨100000, 2⟩, ⟨9000, none⟩, [.rust, .node], none⟩
    (some "python") rfl rfl rfl).1

end FksConfig
